import Mathlib

/-!
Verification development for the go-http-server repository: a shallow
embedding of the per-request context, the middleware-chain execution model of
the std engine adapter, and the middleware algorithms (authentication with
JWT verification, duplicate-request suppression, timeout, error handling,
logging), together with theorems settling the frozen specification claims.

Go byte slices are modelled as Lean `String`s (Go strings are byte strings and
the code only ever compares, concatenates and re-parses them).  Standard
library collaborators that the repository code calls but does not implement
(base64 decoding, JSON unmarshalling, HMAC-SHA256, the wall clock) are
abstracted as explicit parameters, so every theorem quantifies over their
behaviour.
-/

namespace GoHttpServer

/-! ## Error taxonomy (core/middleware/errors)

`GoErr` models Go `error` values as they occur in this code base:
`http status message` is any of the typed `*HttpError` structs of
`core/middleware/errors/error.go` (each carries a fixed status and a message
and satisfies the `HTTPError` capability), `forbidden` is the
`middleware.ErrForbidden` sentinel, `plain` is an `errors.New` /
`fmt.Errorf` value without wrapping, and `wrap outer inner` is
`fmt.Errorf("outer: %w", inner)`. -/

inductive GoErr where
  | http (status : Nat) (message : String)
  | forbidden
  | plain (message : String)
  | wrap (outer : String) (inner : GoErr)
  deriving Repr, DecidableEq

/-- The `Error()` string of a `GoErr`: `fmt.Errorf("%s: %w", outer, inner)`
renders as the outer text, a colon-space, then the inner error's text. -/
def GoErr.message : GoErr → String
  | .http _ m => m
  | .forbidden => "forbidden"
  | .plain m => m
  | .wrap outer inner => outer ++ ": " ++ inner.message

/-- Go `errors.Is(err, ErrForbidden)`: walk the unwrap chain looking for the
`ErrForbidden` sentinel. -/
def GoErr.isForbidden : GoErr → Bool
  | .forbidden => true
  | .http _ _ => false
  | .plain _ => false
  | .wrap _ inner => inner.isForbidden

/-- Go `errors.As(err, &httpErr)` for the `HTTPError` capability: the first
value in the unwrap chain that exposes `StatusCode()`, with its status and
`Error()` message. -/
def GoErr.asHTTPError : GoErr → Option (Nat × String)
  | .http s m => some (s, m)
  | .forbidden => none
  | .plain _ => none
  | .wrap _ inner => inner.asHTTPError

/-- The canonical JSON error envelope of
`core/middleware/errors/response.go`: `NewErrorResponse(statusCode, message)`
marshals as `{"error": {"code": <int>, "message": <string>}}`. -/
structure ErrorResponse where
  code : Nat
  message : String
  deriving Repr, DecidableEq

/-- `errors.NewErrorResponse` from `core/middleware/errors/response.go`. -/
def NewErrorResponse (statusCode : Nat) (message : String) : ErrorResponse :=
  ⟨statusCode, message⟩

/-- `errors.NewUnauthorizedResponse`: 401 envelope, empty message replaced by
"Unauthorized". -/
def NewUnauthorizedResponse (message : String) : ErrorResponse :=
  NewErrorResponse 401 (if message = "" then "Unauthorized" else message)

/-- `errors.NewForbiddenResponse`: 403 envelope, empty message replaced by
"Forbidden". -/
def NewForbiddenResponse (message : String) : ErrorResponse :=
  NewErrorResponse 403 (if message = "" then "Forbidden" else message)

/-- `errors.NewConflictResponse`: 409 envelope, empty message replaced by
"Conflict". -/
def NewConflictResponse (message : String) : ErrorResponse :=
  NewErrorResponse 409 (if message = "" then "Conflict" else message)

/-- `errors.NewInternalServerErrorResponse`: 500 envelope, empty message
replaced by "Internal Server Error". -/
def NewInternalServerErrorResponse (message : String) : ErrorResponse :=
  NewErrorResponse 500 (if message = "" then "Internal Server Error" else message)

/-! ## The std context key/value store (core/std, `Context.Get` / `Context.Set`)

The Go `Context` holds `keys map[string]interface{}`; a zero-value context has
a nil map.  `none` models the nil map, `some m` an allocated map, with the map
itself an association list keyed by `String` (Go map index semantics:
`Set` overwrites, `Get` reports a found flag).  Stored values are an arbitrary
type `V` standing for Go `interface{}`; Go's untyped `nil` result for a
missing key is `Option.none`. -/

structure StdKeyStore (V : Type) where
  keys : Option (List (String × V))
  deriving Repr

/-- Insertion into a Go map rendered on an association list: overwrite the
binding if the key is present, append it otherwise. -/
def goMapInsert {V : Type} (m : List (String × V)) (key : String) (v : V) :
    List (String × V) :=
  match m with
  | [] => [(key, v)]
  | (k, w) :: rest =>
      if k = key then (key, v) :: rest else (k, w) :: goMapInsert rest key v

/-- Go map lookup on an association list. -/
def goMapLookup {V : Type} (m : List (String × V)) (key : String) : Option V :=
  match m with
  | [] => none
  | (k, w) :: rest => if k = key then some w else goMapLookup rest key

/-- `Context.Get` from `core/std`: a nil map yields `(nil, false)`; otherwise
the value and the Go comma-ok flag. -/
def ctxGet {V : Type} (s : StdKeyStore V) (key : String) : Option V × Bool :=
  match s.keys with
  | none => (none, false)
  | some m =>
      match goMapLookup m key with
      | some v => (some v, true)
      | none => (none, false)

/-- `Context.Set` from `core/std`: allocate the map if it is nil, then store
the binding. -/
def ctxSet {V : Type} (s : StdKeyStore V) (key : String) (v : V) : StdKeyStore V :=
  match s.keys with
  | none => ⟨some [(key, v)]⟩
  | some m => ⟨some (goMapInsert m key v)⟩

/-- A zero-value std `Context`: the `keys` map was never initialized (nil). -/
def freshStdKeyStore (V : Type) : StdKeyStore V := ⟨none⟩

/-! ## Response-writer models (claims about status-code capture)

`HttpRespState` models the state of Go's `net/http` response as the client
observes it.  Modelled from the spec: the underlying response writer commits
the status line on the first `WriteHeader` call only ("first `WriteHeader`
call wins; subsequent calls are no-ops for status purposes, but body writes
still pass through"), and a `Write` before any `WriteHeader` implicitly
commits 200; if the handler never writes at all the server replies 200. -/

structure HttpRespState where
  wroteHeader : Bool
  status : Nat
  body : List String
  deriving Repr, DecidableEq

/-- A fresh `net/http` response: nothing committed yet. -/
def freshResp : HttpRespState := ⟨false, 0, []⟩

/-- Modelled from the spec: `net/http` `WriteHeader` — only the first call
commits a status code, later calls are superfluous no-ops. -/
def netWriteHeader (u : HttpRespState) (code : Nat) : HttpRespState :=
  if u.wroteHeader then u else { u with wroteHeader := true, status := code }

/-- Modelled from the spec: `net/http` `Write` — commits 200 if no header was
written yet, then appends the bytes to the response body. -/
def netWrite (u : HttpRespState) (b : String) : HttpRespState :=
  let u' := if u.wroteHeader then u
            else { u with wroteHeader := true, status := 200 }
  { u' with body := u'.body ++ [b] }

/-- The status code the client actually receives for a completed response:
the committed code, or 200 when the handler never wrote anything. -/
def clientStatus (u : HttpRespState) : Nat :=
  if u.wroteHeader then u.status else 200

/-- `ResponseWriterWrapper` from `core/std/logging.go`: `statusCode` and
`written` are its capture fields, `underlying` the wrapped
`http.ResponseWriter`. -/
structure WrapperState where
  statusCode : Nat
  written : Bool
  underlying : HttpRespState
  deriving Repr, DecidableEq

/-- The wrapper as the std logging middleware constructs it:
`statusCode: http.StatusOK`, `written` false, around a fresh response. -/
def freshWrapper : WrapperState := ⟨200, false, freshResp⟩

/-- `ResponseWriterWrapper.WriteHeader`: unconditionally records `code`, marks
`written`, and forwards to the underlying writer. -/
def wrapperWriteHeader (w : WrapperState) (code : Nat) : WrapperState :=
  { statusCode := code, written := true,
    underlying := netWriteHeader w.underlying code }

/-- `ResponseWriterWrapper.Write`: records 200 if no status was captured yet,
then forwards the bytes. -/
def wrapperWrite (w : WrapperState) (b : String) : WrapperState :=
  let w' := if ¬ w.written then { w with statusCode := 200, written := true }
            else w
  { w' with underlying := netWrite w'.underlying b }

/-- `ResponseWriterWrapper.Status`: 200 when nothing was written, else the
captured code. -/
def wrapperStatus (w : WrapperState) : Nat :=
  if ¬ w.written then 200 else w.statusCode

/-- One downstream call on the response writer: a `WriteHeader(code)` or a
`Write(bytes)`. -/
inductive WriterOp where
  | header (code : Nat)
  | write (b : String)
  deriving Repr, DecidableEq

/-- Run a sequence of handler calls through the logging wrapper. -/
def runWrapperOps (ops : List WriterOp) (w : WrapperState) : WrapperState :=
  match ops with
  | [] => w
  | .header code :: rest => runWrapperOps rest (wrapperWriteHeader w code)
  | .write b :: rest => runWrapperOps rest (wrapperWrite w b)

/-- Run a sequence of calls directly on an unwrapped `net/http` writer. -/
def runNetOps (ops : List WriterOp) (u : HttpRespState) : HttpRespState :=
  match ops with
  | [] => u
  | .header code :: rest => runNetOps rest (netWriteHeader u code)
  | .write b :: rest => runNetOps rest (netWrite u b)

/-! ## Timeout middleware (core/middleware/timeout.go)

The middleware starts one watcher goroutine per request racing a
`time.After(config.Timeout)` deadline against the synchronous `c.Next()`.
Nothing in the middleware wraps or guards the response writer: the watcher's
branch writes `503` and the timeout body directly to `c.Writer()`, and the
`responseSent` channel is consulted only before *sending the completion
signal*, never before a write.

`timeoutRaceOvertime` is the middleware's observable effect on the response
in the schedule the overtime premise forces: the handler outlives the
deadline, so `time.After` fires while `c.Next()` is still inside the handler;
the watcher finds `responseSent` empty and performs its two writes; the
handler is not cancelled (there is no cancellation signal) and later performs
its own writes to the very same writer; the deferred completion block touches
only the channel.  The two goroutines' writer accesses are therefore ordered:
watcher first, handler second. -/

/-- The body the watcher writes:
`fmt.Sprintf("Request timed out after %v", config.Timeout)`; `duration` is
the rendering of the configured timeout (for example "2s"). -/
def timeoutBody (duration : String) : String :=
  "Request timed out after " ++ duration

/-- Observable response of the timeout middleware when the downstream handler
outlives the deadline: the watcher writes the 503 header and the timeout body
to the original writer, after which the uncancelled handler's own writer
calls (`handlerOps`) still run against the same writer. -/
def timeoutRaceOvertime (duration : String) (handlerOps : List WriterOp)
    (u : HttpRespState) : HttpRespState :=
  runNetOps handlerOps (netWrite (netWriteHeader u 503) (timeoutBody duration))

/-! ## Error-handler middleware (core/std and core/gin, shared logic)

Both adapters wrap the downstream chain in the same deferred `recover` block:
a panic value that is a string, an error, or anything else is normalized into
a `NewInternalServerHttpError` and fed to `handleError`; when the chain
instead returns normally, the adapters inspect the accumulated error list and
feed its *first* element (`errs[0]` in `core/std/logging.go`,
`gc.Errors[0].Err` in `core/gin/errorhandler.go`) to `handleError`. -/

/-- A Go panic value as the `recover` switch of the middleware distinguishes
them: a `string`, an `error` value, or any other value (`shown` is its `%v`
rendering used in the "unknown error" message). -/
inductive PanicValue where
  | str (s : String)
  | errv (e : GoErr)
  | other (shown : String)
  deriving Repr, DecidableEq

/-- The normalization switch inside the deferred `recover` block: every
panic value becomes an `InternalServerHttpError` (status 500). -/
def normalizePanic : PanicValue → GoErr
  | .str s => .http 500 s
  | .errv e => .http 500 e.message
  | .other shown => .http 500 ("unknown error: " ++ shown)

/-- `core.ErrorHandlerConfig`: the default status/message pair used for
errors without the `HTTPError` capability. -/
structure ErrorHandlerConfig where
  defaultErrorMessage : String
  defaultStatusCode : Nat
  deriving Repr, DecidableEq

/-- `middleware.DefaultErrorHandlerConfig()`. -/
def DefaultErrorHandlerConfig : ErrorHandlerConfig := ⟨"Internal Server Error", 500⟩

/-- `handleError` from `core/std/logging.go` / `core/gin/errorhandler.go`:
respond with the `HTTPError`'s own status and message when `errors.As`
finds one, with the configured default pair otherwise.  The result is the
status passed to `c.JSON` together with the canonical envelope. -/
def handleError (config : ErrorHandlerConfig) (err : GoErr) : Nat × ErrorResponse :=
  match err.asHTTPError with
  | some (st, msg) => (st, NewErrorResponse st msg)
  | none =>
      (config.defaultStatusCode,
       NewErrorResponse config.defaultStatusCode config.defaultErrorMessage)

/-- How the downstream chain finished: normally, with the accumulated error
list of the context, or by panicking with some value. -/
inductive ChainResult where
  | normal (errs : List GoErr)
  | panicked (v : PanicValue)
  deriving Repr, DecidableEq

/-- The error-handler middleware's response decision after the downstream
chain finishes: a panic is recovered exactly once and normalized before
`handleError`; a normal return with a non-empty error list feeds the first
accumulated error to `handleError`; a normal return with no errors produces
no error response (`none`). -/
def errorHandlerMiddleware (config : ErrorHandlerConfig) (result : ChainResult) :
    Option (Nat × ErrorResponse) :=
  match result with
  | .panicked v => some (handleError config (normalizePanic v))
  | .normal [] => none
  | .normal (e :: _) => some (handleError config e)

/-! ## Duplicate-request middleware (core/middleware/duprequest.go) -/

/-- `core.DuplicateRequestConfig`'s per-request collaborator behaviour:
the generator's result, the storage existence check and the storage save,
each fallible (`GoErr` on failure). -/
structure DupCollaborators where
  generate : Except GoErr String
  checkRequestID : String → Except GoErr Bool
  saveRequestID : String → Option GoErr
  deriving Inhabited

/-- Observable collaborator/chain events of one pass through the
duplicate-request middleware, in execution order. -/
inductive DupEvent where
  | generateCall
  | checkCall (id : String)
  | saveCall (id : String)
  | nextCall
  deriving Repr, DecidableEq

/-- Outcome of the duplicate-request middleware: an immediate JSON response,
or fall-through to `c.Next()`. -/
inductive DupOutcome where
  | respond (status : Nat) (body : ErrorResponse)
  | continued
  deriving Repr, DecidableEq

/-- `DuplicateRequestMiddleware`'s returned handler, instrumented with the
ordered event trace: generate an ID (failure → 500), check existence
(failure → 500), reject an existing ID with 409 and the configured conflict
message, save (failure → 500), and only then continue the chain. -/
def duplicateRequestMiddleware (collab : DupCollaborators)
    (conflictMessage : String) : List DupEvent × DupOutcome :=
  match collab.generate with
  | .error _ =>
      ([.generateCall],
       .respond 500 (NewInternalServerErrorResponse "Failed to generate request ID"))
  | .ok requestID =>
      match collab.checkRequestID requestID with
      | .error _ =>
          ([.generateCall, .checkCall requestID],
           .respond 500 (NewInternalServerErrorResponse "Failed to check request ID"))
      | .ok true =>
          ([.generateCall, .checkCall requestID],
           .respond 409 (NewConflictResponse conflictMessage))
      | .ok false =>
          match collab.saveRequestID requestID with
          | some _ =>
              ([.generateCall, .checkCall requestID, .saveCall requestID],
               .respond 500 (NewInternalServerErrorResponse "Failed to save request ID"))
          | none =>
              ([.generateCall, .checkCall requestID, .saveCall requestID, .nextCall],
               .continued)

/-! ## Authentication middleware (core/middleware/auth.go)

JSON values produced by `encoding/json` unmarshalling into
`map[string]interface{}` (JSON numbers, `float64` in Go, are modelled as
integers here; no claim exercises fractional values).  The code under
verification inspects only string claims (`alg`) and numeric claims (`exp`)
and passes everything else through opaquely, so nested arrays and objects
are collapsed into the opaque `composite` constructor (tagged so that
distinct nested values stay distinct). -/

inductive Jval where
  | str (s : String)
  | num (n : Int)
  | bool (b : Bool)
  | null
  | composite (tag : Nat)
  deriving Repr, DecidableEq

/-- `middleware.MapClaims`: `map[string]interface{}` holding JWT claims. -/
def MapClaims : Type := List (String × Jval)

/-- Helper for `goSplit`: walk the characters, cutting at every separator
occurrence (`acc` holds the current piece, reversed). -/
def goSplitAux (sep : Char) : List Char → List Char → List String
  | [], acc => [String.mk acc.reverse]
  | x :: xs, acc =>
      if x = sep then String.mk acc.reverse :: goSplitAux sep xs []
      else goSplitAux sep xs (x :: acc)

/-- Go `strings.Split(s, sep)` for the single-character separators this code
base uses (`"."`, `" "`, `"/"`, `":"`, `","`): split at every occurrence;
splitting the empty string yields `[""]`. -/
def goSplit (s : String) (sep : Char) : List String :=
  goSplitAux sep s.toList []

/-- Join pieces back with the separator (inverse of `goSplit`). -/
def goJoin (sep : Char) : List String → String
  | [] => ""
  | [x] => x
  | x :: xs => x ++ String.mk [sep] ++ goJoin sep xs

/-- Go `strings.SplitN(s, sep, 2)` for a single-character separator: split at
the first occurrence only, keeping the remainder (with any further
separators) as the second piece. -/
def goSplitN2 (s : String) (sep : Char) : List String :=
  match goSplit s sep with
  | [] => []
  | x :: rest =>
      if rest.isEmpty then [x] else [x, goJoin sep rest]

/-- Go `strings.ReplaceAll(s, old, new)` for single-character arguments. -/
def goReplaceAll (s : String) (oldc newc : Char) : String :=
  String.mk (s.toList.map fun x => if x = oldc then newc else x)

/-- ASCII whitespace as Go `strings.TrimSpace` strips it (the code only ever
trims around IP addresses). -/
def isSpaceChar (c : Char) : Bool :=
  c = ' ' || c = '\t' || c = '\n' || c = '\r'

/-- Go `strings.TrimSpace`. -/
def goTrimSpace (s : String) : String :=
  String.mk (((s.toList.dropWhile isSpaceChar).reverse.dropWhile isSpaceChar).reverse)

/-- Standard-library collaborators the authentication code calls:
`base64.StdEncoding.DecodeString` (decoded bytes as a byte string),
`json.Unmarshal` into a string-keyed object, HMAC-SHA256
(`crypto/hmac` over `crypto/sha256`, digest as a byte string, ordered
data-then-secret like `createHmacSignature`), and `time.Now().Unix()`. -/
structure GoLibPrims where
  stdB64Decode : String → Option String
  jsonUnmarshalObj : String → Option (List (String × Jval))
  hmacSHA256 : String → String → String
  nowUnix : Int

/-- `base64URLDecode` from `core/middleware/auth.go`: pad with `=` to a
multiple of four, translate `-`→`+` and `_`→`/`, then standard base64
decoding. -/
def base64URLDecode (P : GoLibPrims) (s : String) : Option String :=
  let padded :=
    if s.length % 4 ≠ 0 then
      s ++ String.mk (List.replicate (4 - s.length % 4) '=')
    else s
  let translated := goReplaceAll (goReplaceAll padded '-' '+') '_' '/'
  P.stdB64Decode translated

/-- `createHmacSignature` from `core/middleware/auth.go`: HMAC-SHA256 of
`data` under `secret`. -/
def createHmacSignature (P : GoLibPrims) (data secret : String) : String :=
  P.hmacSHA256 data secret

/-- `parseJWT` from `core/middleware/auth.go`: split into exactly three
dot-separated segments; decode and parse the header; require the string
claim `alg == "HS256"`; decode and parse the payload; base64url-decode the
signature and compare it (`hmac.Equal`, byte-for-byte) against the
recomputed HMAC of `header.payload`; finally reject a numeric `exp` claim
in the past. -/
def parseJWT (P : GoLibPrims) (tokenString secret : String) :
    Except GoErr MapClaims :=
  match goSplit tokenString '.' with
  | [part0, part1, part2] =>
      match base64URLDecode P part0 with
      | none => .error (.plain "invalid token header")
      | some headerJSON =>
          match P.jsonUnmarshalObj headerJSON with
          | none => .error (.plain "invalid token header")
          | some header =>
              match goMapLookup header "alg" with
              | some (Jval.str alg) =>
                  if alg ≠ "HS256" then
                    .error (.plain "unsupported signing method")
                  else
                    match base64URLDecode P part1 with
                    | none => .error (.plain "invalid token payload")
                    | some payloadJSON =>
                        match P.jsonUnmarshalObj payloadJSON with
                        | none => .error (.plain "invalid token payload")
                        | some claims =>
                            match base64URLDecode P part2 with
                            | none => .error (.plain "invalid token signature")
                            | some signatureBytes =>
                                if signatureBytes ≠
                                    createHmacSignature P (part0 ++ "." ++ part1) secret then
                                  .error (.plain "invalid token signature")
                                else
                                  match goMapLookup claims "exp" with
                                  | some (Jval.num exp) =>
                                      if P.nowUnix > exp then
                                        .error (.plain "token expired")
                                      else .ok claims
                                  | _ => .ok claims
              | _ => .error (.plain "unsupported signing method")
  | _ => .error (.plain "invalid token format")

/-- `handleBasicAuth` from `core/middleware/auth.go`, instrumented with a
flag recording whether the lookup collaborator was invoked: base64-decode
the credentials, split once on the first colon, then delegate to the Basic
lookup. -/
def handleBasicAuth {User : Type} (P : GoLibPrims)
    (lookup : String → String → Except GoErr User) (credentials : String) :
    Except GoErr User × Bool :=
  match P.stdB64Decode credentials with
  | none => (.error (.plain "invalid basic auth format"), false)
  | some userPass =>
      match goSplitN2 userPass ':' with
      | [username, password] =>
          match lookup username password with
          | .error e => (.error (.wrap "authentication failed" e), true)
          | .ok u => (.ok u, true)
      | _ => (.error (.plain "invalid basic auth format"), false)

/-- `handleBearerToken` from `core/middleware/auth.go`, instrumented with a
flag recording whether the JWT lookup collaborator was invoked: the lookup
runs only after `parseJWT` succeeds. -/
def handleBearerToken {User : Type} (P : GoLibPrims)
    (lookup : MapClaims → Except GoErr User) (tokenString secret : String) :
    Except GoErr User × Bool :=
  match parseJWT P tokenString secret with
  | .error e => (.error (.wrap "invalid token" e), false)
  | .ok claims =>
      match lookup claims with
      | .error e => (.error (.wrap "authentication failed" e), true)
      | .ok u => (.ok u, true)

/-- `middleware.AuthType`. -/
inductive AuthKind where
  | basic
  | jwt
  deriving Repr, DecidableEq

/-- `middleware.AuthConfig` at request time.  The lookup fields are the
effective collaborators after the constructor's nil-fallback (a dedicated
`BasicAuthLookup`/`JWTLookup` or the backward-compatible `UserLookup`). -/
structure AuthConfig (User : Type) where
  authType : AuthKind
  jwtSecret : String
  unauthorizedMessage : String
  forbiddenMessage : String
  skipPaths : List String
  basicAuthLookup : String → String → Except GoErr User
  jwtLookup : MapClaims → Except GoErr User

/-- Observable outcome of one pass through the authentication middleware:
bypassed via the skip list, an immediate JSON error response, or success
(the user value stored for downstream handlers, chain continues). -/
inductive AuthOutcome (User : Type) where
  | skip
  | respond (status : Nat) (body : ErrorResponse)
  | authenticated (user : User)
  deriving Repr, DecidableEq

/-- The handler returned by `AuthMiddleware` (`core/middleware/auth.go`,
request-time behaviour), instrumented with a flag recording whether a user
lookup collaborator was invoked.  The skip-path check compares the request
path for *equality* with each configured entry and happens before the
`Authorization` header is read; then the header is split on the first space
into scheme and credentials and dispatched on the configured auth type; a
lookup error tagged `ErrForbidden` yields 403, every other failure 401. -/
def runAuthMiddleware {User : Type} (P : GoLibPrims) (cfg : AuthConfig User)
    (path : String) (authHeader : String) : AuthOutcome User × Bool :=
  if cfg.skipPaths.contains path then (.skip, false)
  else if authHeader = "" then
    (.respond 401 (NewUnauthorizedResponse cfg.unauthorizedMessage), false)
  else
    match goSplitN2 authHeader ' ' with
    | [scheme, credentials] =>
        let checked : Option (Except GoErr User × Bool) :=
          match cfg.authType with
          | .basic =>
              if scheme ≠ "Basic" then none
              else some (handleBasicAuth P cfg.basicAuthLookup credentials)
          | .jwt =>
              if scheme ≠ "Bearer" then none
              else some (handleBearerToken P cfg.jwtLookup credentials cfg.jwtSecret)
        match checked with
        | none =>
            match cfg.authType with
            | .basic =>
                (.respond 401 (NewUnauthorizedResponse "Basic authentication required"),
                 false)
            | .jwt =>
                (.respond 401 (NewUnauthorizedResponse "Bearer token required"), false)
        | some (.error e, invoked) =>
            if e.isForbidden then
              (.respond 403 (NewForbiddenResponse cfg.forbiddenMessage), invoked)
            else
              (.respond 401 (NewUnauthorizedResponse cfg.unauthorizedMessage), invoked)
        | some (.ok user, invoked) => (.authenticated user, invoked)
    | _ =>
        (.respond 401 (NewUnauthorizedResponse "Invalid authorization format"), false)

/-! ## Skip-path matching (core/middleware/util/path_matcher.go) -/

mutual
/-- Glob matching as Go's `path.Match` performs it for the pattern subset the
skip-list feature documents (literal characters and `*`; no `?` and no
character classes, for which `path.Match` can also return an error that the
caller discards): `*` matches any possibly empty run of non-separator
characters, every other pattern character matches itself.  `fuel` bounds the
backtracking depth; `globFuel` below always suffices. -/
def globMatch : Nat → List Char → List Char → Bool
  | 0, _, _ => false
  | _ + 1, [], cs => cs.isEmpty
  | f + 1, p :: ps, cs =>
      if p = '*' then globStar f ps cs
      else
        match cs with
        | [] => false
        | c :: cs' => p = c && globMatch f ps cs'

/-- Helper for `globMatch`: try to match the rest of the pattern after a `*`
at every split of the remaining name that does not cross a `/`. -/
def globStar : Nat → List Char → List Char → Bool
  | 0, _, _ => false
  | f + 1, ps, cs =>
      globMatch f ps cs ||
        match cs with
        | [] => false
        | c :: cs' => c ≠ '/' && globStar f ps cs'
end

/-- Fuel that always suffices for `globMatch` (every recursive call either
shortens the pattern or the name, or flips between the two phases). -/
def globFuel (pattern pathStr : String) : Nat :=
  2 * (pattern.length + pathStr.length) + 4

/-- `isWildcardMatch` from `core/middleware/util/path_matcher.go`:
`path.Match(pattern, pathStr)` with a discarded error. -/
def isWildcardMatch (pattern pathStr : String) : Bool :=
  globMatch (globFuel pattern pathStr) pattern.toList pathStr.toList

/-- Go `strings.HasPrefix(s, ":")`: the segment begins with a colon. -/
def goStartsWithColon (s : String) : Bool :=
  match s.toList with
  | [] => false
  | c :: _ => c = ':'

/-- `isParamPatternMatch` from `core/middleware/util/path_matcher.go`: split
pattern and path on `/`; they match when they have the same number of
segments and every pattern segment either starts with `:` or equals the path
segment. -/
def isParamPatternMatch (pattern pathStr : String) : Bool :=
  let p1 := goSplit pattern '/'
  let p2 := goSplit pathStr '/'
  if p1.length ≠ p2.length then false
  else (p1.zip p2).all fun pr => goStartsWithColon pr.1 || pr.1 == pr.2

/-- `util.IsSkipPaths` from `core/middleware/util/path_matcher.go`: a path is
skip-listed when some entry matches it exactly, as a glob, or as a `:param`
pattern. -/
def IsSkipPaths (pathStr : String) (skipPaths : List String) : Bool :=
  skipPaths.any fun ignorePath =>
    pathStr == ignorePath || isWildcardMatch ignorePath pathStr ||
      isParamPatternMatch ignorePath pathStr

/-! ## Logging middleware (core/middleware base + core/std/logging.go) -/

/-- The request data the logging middleware reads.  Header lookup is by the
canonical header name (Go's `Header.Get` canonicalizes its argument). -/
structure Request where
  method : String
  path : String
  proto : String
  headers : List (String × String)
  remoteAddr : String
  deriving Repr, DecidableEq

/-- `req.Header.Get`: empty string when the header is absent. -/
def headerGet (req : Request) (key : String) : String :=
  match goMapLookup req.headers key with
  | some v => v
  | none => ""

/-- `core.LoggingConfig`. -/
structure LoggingConfig where
  remoteURL : String
  customFields : List (String × String)
  loggingToConsole : Bool
  loggingToRemote : Bool
  skipPaths : List String
  deriving Repr, DecidableEq

/-- The `ApiLog` record shape from the base logging middleware. -/
structure ApiLog where
  clientIp : String
  timestamp : String
  method : String
  path : String
  protocol : String
  statusCode : Nat
  latency : Int
  userAgent : String
  error : String
  requestId : String
  authorization : String
  customFields : List (String × String)
  deriving Repr, DecidableEq

/-- `getClientIP` from the base logging middleware: the first
`X-Forwarded-For` hop, else `X-Real-IP`, else `RemoteAddr` with everything
from the last colon on stripped. -/
def getClientIP (req : Request) : String :=
  let xff := headerGet req "X-Forwarded-For"
  if xff ≠ "" then
    (match goSplit xff ',' with
     | [] => ""
     | ip :: _ => goTrimSpace ip)
  else
    let xrip := headerGet req "X-Real-IP"
    if xrip ≠ "" then xrip
    else
      let cs := req.remoteAddr.toList
      match cs.reverse.findIdx? (· = ':') with
      | none => req.remoteAddr
      | some ridx => String.mk (cs.take (cs.length - 1 - ridx))

/-- `maskAuthorizationBool` from the base logging middleware: keep the
scheme, mask the credential, unless masking is disabled. -/
def maskAuthorizationBool (auth : String) (maskAuth : Bool) : String :=
  if auth = "" then ""
  else if ¬ maskAuth then auth
  else
    match goSplit auth ' ' with
    | [scheme, _] => scheme ++ " [MASKED]"
    | _ => "[MASKED]"

/-- `BaseLoggingMiddleware.CreateLogEntry`: assemble the `ApiLog` record;
the `Authorization` header is masked exactly when console logging is off.
`now` stands for `time.Now().Format(time.RFC3339)`. -/
def CreateLogEntry (req : Request) (statusCode : Nat) (latency : Int)
    (requestID : String) (config : LoggingConfig) (now : String) : ApiLog :=
  { clientIp := getClientIP req
    timestamp := now
    method := req.method
    path := req.path
    protocol := req.proto
    statusCode := statusCode
    latency := latency
    userAgent := headerGet req "User-Agent"
    error := "none"
    requestId := requestID
    authorization := maskAuthorizationBool (headerGet req "Authorization")
      (¬ config.loggingToConsole)
    customFields := config.customFields }

/-- The log entry the std `LoggingMiddleware.Middleware` hands to
`ProcessLog`, or `none` when no log is processed for the request.
`isStdContext` is the middleware's type assertion `c.(*Context)` — `true` on
the engine's own requests.  On the std-context branch the middleware wraps
the writer, observes the captured status after `Next()`, sets the error
field for 4xx/5xx codes, and always processes the entry: `config.SkipPaths`
is consulted only on the fallback (non-std-context) branch, which also logs
a hard-coded 200 status. -/
def stdLoggingMiddlewareLog (config : LoggingConfig) (req : Request)
    (isStdContext : Bool) (observedStatus : Nat) (latency : Int)
    (requestID : String) (now : String) : Option ApiLog :=
  if isStdContext = false then
    if config.skipPaths.contains req.path then none
    else some (CreateLogEntry req 200 latency requestID config now)
  else
    let entry := CreateLogEntry req observedStatus latency requestID config now
    some (if observedStatus ≥ 400 then
            { entry with error := "HTTP error: " ++ toString observedStatus }
          else entry)

/-! ## The std engine's middleware-chain execution model (core/std)

`Context.Next` from `core/std` is

  c.index++
  for c.index < c.handlerCount { c.handlers[c.index](c); c.index++ }

and `Server.handleHTTP` builds the context with `index: -1` over the
concatenated `[middleware..., routeHandlers...]` slice and calls
`ctx.Next()` once.

A handler body is modelled syntactically: it either returns, or performs a
`c.Next()` call and continues, or performs a `c.Abort()` call and continues
(the source under `src/` does not contain the std `Context.Abort` method
body, only the `core.Context` interface that declares it; `seqAbort`'s
semantics is modelled from the spec: the minimal engine "achieves the same
effect by exhausting the cursor", i.e. `c.index = c.handlerCount`).  The
interpreter carries the shared cursor and the ordered trace of handler
positions that started executing.  `fuel` only bounds the recursion depth;
every theorem below supplies enough of it. -/

inductive HandlerProg where
  | ret
  | seqNext (rest : HandlerProg)
  | seqAbort (rest : HandlerProg)
  deriving Repr, DecidableEq

/-- The flow-control state of a std `Context`: the handler-index cursor
(`index`, starting at `-1`) and the positions whose handlers were invoked,
in invocation order. -/
structure ChainState where
  index : Int
  executed : List Nat
  deriving Repr, DecidableEq

mutual
/-- `Context.Next`: increment the cursor, then run the loop. -/
def runNext (hs : List HandlerProg) : Nat → ChainState → ChainState
  | 0, s => s
  | fuel + 1, s => nextLoop hs fuel { s with index := s.index + 1 }

/-- The `for c.index < c.handlerCount` loop of `Context.Next`: invoke the
handler at the cursor, then increment and repeat.  (The cursor is never
negative when the loop is reached: the only entry points increment it first,
starting from `-1`, and it only ever grows.) -/
def nextLoop (hs : List HandlerProg) : Nat → ChainState → ChainState
  | 0, s => s
  | fuel + 1, s =>
      if s.index < (hs.length : Int) then
        let i := s.index.toNat
        let s' := runProg hs fuel (hs.getD i .ret)
          { s with executed := s.executed ++ [i] }
        nextLoop hs fuel { s' with index := s'.index + 1 }
      else s

/-- Run one handler body against the shared context state. -/
def runProg (hs : List HandlerProg) : Nat → HandlerProg → ChainState → ChainState
  | _, .ret, s => s
  | 0, _, s => s
  | fuel + 1, .seqNext rest, s => runProg hs fuel rest (runNext hs fuel s)
  | fuel + 1, .seqAbort rest, s =>
      runProg hs fuel rest { s with index := (hs.length : Int) }
end

/-- Recursion-depth budget that suffices for a whole chain run: each handler
body of size `k` opens at most `k` nested `Next` loops, and each loop makes
at most one pass per handler position. -/
def progSize : HandlerProg → Nat
  | .ret => 1
  | .seqNext rest => progSize rest + 2
  | .seqAbort rest => progSize rest + 2

/-- Fuel for a full chain run (generous; see `progSize`). -/
def chainFuel (hs : List HandlerProg) : Nat :=
  (hs.map progSize).sum * (hs.length + 2) + hs.length + 2

/-- `Server.handleHTTP` from `core/std`: build the per-request context with
`index: -1` over the handler slice and start the chain with one `Next()`
call. -/
def runStdChain (hs : List HandlerProg) : ChainState :=
  runNext hs (chainFuel hs) { index := -1, executed := [] }

/-! ## Theorems settling the claims -/

lemma goMapLookup_goMapInsert {V : Type} (m : List (String × V)) (k : String) (v : V) :
    goMapLookup (goMapInsert m k v) k = some v := by
  induction m with
  | nil => simp [goMapInsert, goMapLookup]
  | cons hd tl ih =>
      obtain ⟨k1, w⟩ := hd
      by_cases h : k1 = k <;> simp [goMapInsert, goMapLookup, h, ih]

/-- C10: the std per-request context key/value store behaves as a finite map
with a found flag: `Set(k, v)` followed by `Get(k)` returns `(v, true)`, and
`Get` on a context whose store was never initialized (nil `keys` map)
returns `(nil, false)` without panicking. -/
theorem stdContext_store_set_get (V : Type) (s : StdKeyStore V) (k : String)
    (v : V) (k' : String) :
    ctxGet (ctxSet s k v) k = (some v, true) ∧
    ctxGet (freshStdKeyStore V) k' = (none, false) := by
  refine ⟨?_, rfl⟩
  obtain ⟨keys⟩ := s
  cases keys with
  | none => simp [ctxSet, ctxGet, goMapLookup]
  | some m => simp [ctxSet, ctxGet, goMapLookup_goMapInsert]

/-- C7: every panic value raised downstream — a string, an error value, or
an arbitrary other value — is recovered by the error-handler middleware,
normalized to an InternalServer-tagged error, and answered with the
canonical JSON envelope carrying code 500; the middleware's result is a
response, never a propagated panic. -/
theorem errorHandler_recovers_every_panic (config : ErrorHandlerConfig)
    (v : PanicValue) :
    errorHandlerMiddleware config (.panicked v) =
      some (500, NewErrorResponse 500 (normalizePanic v).message) ∧
    normalizePanic v = .http 500 (normalizePanic v).message := by
  cases v <;>
    simp [errorHandlerMiddleware, handleError, normalizePanic, GoErr.asHTTPError,
      GoErr.message]

/-- C2, failing input: a handler that calls `WriteHeader(201)` and then
`WriteHeader(500)` before writing the body.  The client receives status 201
(the underlying `net/http` writer ignores the superfluous second call), yet
the logging wrapper's `Status()` reports 500 — the code stores the *last*
code instead of the first.  Body writes do still pass through. -/
theorem loggingWrapper_double_writeHeader_diverges :
    wrapperStatus (runWrapperOps [.header 201, .header 500, .write "body"] freshWrapper)
      = 500 ∧
    clientStatus (runWrapperOps [.header 201, .header 500, .write "body"]
      freshWrapper).underlying = 201 ∧
    (runWrapperOps [.header 201, .header 500, .write "body"] freshWrapper).underlying.body
      = ["body"] := by
  decide

/-- C4, failing input: the downstream handler outlives the 2s deadline and
then writes status 200 and the body "late".  The watcher's 503 status wins,
but the handler's late body write still reaches the client: the response
body carries both the timeout body and "late", so the client does not
receive exactly one response body. -/
theorem timeout_late_write_reaches_client :
    clientStatus (timeoutRaceOvertime "2s" [.header 200, .write "late"] freshResp)
      = 503 ∧
    (timeoutRaceOvertime "2s" [.header 200, .write "late"] freshResp).body
      = [timeoutBody "2s", "late"] ∧
    (timeoutRaceOvertime "2s" [.header 200, .write "late"] freshResp).body
      ≠ [timeoutBody "2s"] := by
  decide

/-- C9: the duplicate-request middleware's five branches: a generator error
yields 500 with the failed-to-generate message and no storage call; a
storage-check error yields 500; an existing ID yields 409 Conflict with the
configurable message and no save; a save error yields 500; and on the
success path the ID is saved and only then is the chain continued. -/
theorem dupRequest_branch_contract (collab : DupCollaborators) (msg : String) :
    (∀ e, collab.generate = .error e →
      duplicateRequestMiddleware collab msg =
        ([.generateCall],
         .respond 500 (NewInternalServerErrorResponse "Failed to generate request ID"))) ∧
    (∀ id e, collab.generate = .ok id → collab.checkRequestID id = .error e →
      duplicateRequestMiddleware collab msg =
        ([.generateCall, .checkCall id],
         .respond 500 (NewInternalServerErrorResponse "Failed to check request ID"))) ∧
    (∀ id, collab.generate = .ok id → collab.checkRequestID id = .ok true →
      duplicateRequestMiddleware collab msg =
        ([.generateCall, .checkCall id],
         .respond 409 (NewConflictResponse msg))) ∧
    (∀ id e, collab.generate = .ok id → collab.checkRequestID id = .ok false →
      collab.saveRequestID id = some e →
      duplicateRequestMiddleware collab msg =
        ([.generateCall, .checkCall id, .saveCall id],
         .respond 500 (NewInternalServerErrorResponse "Failed to save request ID"))) ∧
    (∀ id, collab.generate = .ok id → collab.checkRequestID id = .ok false →
      collab.saveRequestID id = none →
      duplicateRequestMiddleware collab msg =
        ([.generateCall, .checkCall id, .saveCall id, .nextCall], .continued)) := by
  refine ⟨?_, ?_, ?_, ?_, ?_⟩
  · intro e hgen; simp [duplicateRequestMiddleware, hgen]
  · intro id e hgen hcheck; simp [duplicateRequestMiddleware, hgen, hcheck]
  · intro id hgen hcheck; simp [duplicateRequestMiddleware, hgen, hcheck]
  · intro id e hgen hcheck hsave
    simp [duplicateRequestMiddleware, hgen, hcheck, hsave]
  · intro id hgen hcheck hsave
    simp [duplicateRequestMiddleware, hgen, hcheck, hsave]

/-- Witness for C9: the theorem applied to concrete collaborators, one per
branch, with every hypothesis discharged by evaluation. -/
theorem dupRequest_branch_contract_witness :
    duplicateRequestMiddleware ⟨.error (.plain "g"), fun _ => .ok false, fun _ => none⟩ "m"
      = ([.generateCall],
         .respond 500 (NewInternalServerErrorResponse "Failed to generate request ID")) ∧
    duplicateRequestMiddleware ⟨.ok "id1", fun _ => .ok true, fun _ => none⟩ "m"
      = ([.generateCall, .checkCall "id1"],
         .respond 409 (NewConflictResponse "m")) ∧
    duplicateRequestMiddleware ⟨.ok "id1", fun _ => .ok false, fun _ => none⟩ "m"
      = ([.generateCall, .checkCall "id1", .saveCall "id1", .nextCall], .continued) :=
  ⟨(dupRequest_branch_contract _ "m").1 (.plain "g") rfl,
   (dupRequest_branch_contract _ "m").2.2.1 "id1" rfl rfl,
   (dupRequest_branch_contract _ "m").2.2.2.2 "id1" rfl rfl rfl⟩

/-- C8, counterexample: the accumulated error list
`[plain "boom", NotFound 404]` contains an error exposing the HTTPError
capability (the second one), yet the middleware answers with the configured
default 500 pair, not with 404 — it inspects only the first error. -/
theorem errorHandler_ignores_later_http_error :
    errorHandlerMiddleware DefaultErrorHandlerConfig
        (.normal [.plain "boom", .http 404 "not found"])
      = some (500, NewErrorResponse 500 "Internal Server Error") ∧
    (GoErr.http 404 "not found").asHTTPError = some (404, "not found") ∧
    errorHandlerMiddleware DefaultErrorHandlerConfig
        (.normal [.plain "boom", .http 404 "not found"])
      ≠ some (404, NewErrorResponse 404 "not found") := by
  decide

/-- C8, amended: after a normal chain return the middleware inspects only
the *first* accumulated error: when that error (through its unwrap chain)
exposes the HTTPError capability its status code and message are used
verbatim; otherwise — even if a later error in the list is an HTTPError —
the configured default status/message pair is used; an empty list produces
no error response. -/
theorem errorHandler_first_error_decides (config : ErrorHandlerConfig)
    (e : GoErr) (rest : List GoErr) :
    errorHandlerMiddleware config (.normal (e :: rest)) =
      some (handleError config e) ∧
    (∀ st msg, e.asHTTPError = some (st, msg) →
      handleError config e = (st, NewErrorResponse st msg)) ∧
    (e.asHTTPError = none →
      handleError config e =
        (config.defaultStatusCode,
         NewErrorResponse config.defaultStatusCode config.defaultErrorMessage)) ∧
    errorHandlerMiddleware config (.normal []) = none := by
  refine ⟨rfl, ?_, ?_, rfl⟩
  · intro st msg h; simp [handleError, h]
  · intro h; simp [handleError, h]

/-- Witness for C8's amended theorem at concrete inputs. -/
theorem errorHandler_first_error_decides_witness :
    errorHandlerMiddleware DefaultErrorHandlerConfig
        (.normal [.http 404 "not found", .plain "boom"]) =
      some (handleError DefaultErrorHandlerConfig (.http 404 "not found")) ∧
    handleError DefaultErrorHandlerConfig (.http 404 "not found") =
      (404, NewErrorResponse 404 "not found") ∧
    handleError DefaultErrorHandlerConfig (.plain "boom") =
      (500, NewErrorResponse 500 "Internal Server Error") :=
  ⟨(errorHandler_first_error_decides DefaultErrorHandlerConfig
      (.http 404 "not found") [.plain "boom"]).1,
   (errorHandler_first_error_decides DefaultErrorHandlerConfig
      (.http 404 "not found") [.plain "boom"]).2.1 404 "not found" rfl,
   (errorHandler_first_error_decides DefaultErrorHandlerConfig
      (.plain "boom") []).2.2.1 rfl⟩

/-- C5: a Bearer token of three dot-separated segments whose decoded header
JSON does not carry the string claim `alg = "HS256"` (absent, non-string, or
any other algorithm) is rejected by `parseJWT` with "unsupported signing
method" before any signature material is examined, so the middleware
responds 401 and never invokes the user lookup collaborator — regardless of
the attached signature. -/
theorem authMiddleware_rejects_non_hs256 {User : Type} (P : GoLibPrims)
    (cfg : AuthConfig User) (path authHeader t h0 h1 h2 headerJSON : String)
    (header : List (String × Jval))
    (hsplit : goSplit t '.' = [h0, h1, h2])
    (hdec : base64URLDecode P h0 = some headerJSON)
    (hparse : P.jsonUnmarshalObj headerJSON = some header)
    (halg : goMapLookup header "alg" ≠ some (Jval.str "HS256"))
    (htype : cfg.authType = .jwt)
    (hskip : cfg.skipPaths.contains path = false)
    (hne : authHeader ≠ "")
    (hhdr : goSplitN2 authHeader ' ' = ["Bearer", t]) :
    parseJWT P t cfg.jwtSecret = .error (.plain "unsupported signing method") ∧
    handleBearerToken P cfg.jwtLookup t cfg.jwtSecret =
      (.error (.wrap "invalid token" (.plain "unsupported signing method")), false) ∧
    runAuthMiddleware P cfg path authHeader =
      (.respond 401 (NewUnauthorizedResponse cfg.unauthorizedMessage), false) := by
  have hp : parseJWT P t cfg.jwtSecret =
      .error (.plain "unsupported signing method") := by
    rcases hl : goMapLookup header "alg" with _ | jv
    · simp [parseJWT, hsplit, hdec, hparse, hl]
    · cases jv with
      | str s =>
          have hs : s ≠ "HS256" := by
            intro h; exact halg (by rw [hl, h])
          simp [parseJWT, hsplit, hdec, hparse, hl, hs]
      | num n => simp [parseJWT, hsplit, hdec, hparse, hl]
      | bool b => simp [parseJWT, hsplit, hdec, hparse, hl]
      | null => simp [parseJWT, hsplit, hdec, hparse, hl]
      | composite tag => simp [parseJWT, hsplit, hdec, hparse, hl]
  have hb : handleBearerToken P cfg.jwtLookup t cfg.jwtSecret =
      (.error (.wrap "invalid token" (.plain "unsupported signing method")), false) := by
    simp [handleBearerToken, hp]
  have hskip' : path ∉ cfg.skipPaths := by simpa using hskip
  refine ⟨hp, hb, ?_⟩
  simp [runAuthMiddleware, hskip', hne, hhdr, htype, hb, GoErr.isForbidden]

/-- Witness for C5: a concrete token `a.b.c` whose header decodes to
`alg = "none"` is rejected with 401 and the lookup collaborator is not
invoked, for concrete collaborator instantiations. -/
theorem authMiddleware_rejects_non_hs256_witness :
    runAuthMiddleware
        ⟨fun s => some s, fun _ => some [("alg", Jval.str "none")],
         fun _ _ => "MAC", 0⟩
        (⟨.jwt, "sec", "Unauthorized", "Forbidden", [],
          fun _ _ => Except.ok (), fun _ => Except.ok ()⟩ : AuthConfig Unit)
        "/p" "Bearer a.b.c" =
      (.respond 401 (NewUnauthorizedResponse "Unauthorized"), false) :=
  (authMiddleware_rejects_non_hs256
    ⟨fun s => some s, fun _ => some [("alg", Jval.str "none")], fun _ _ => "MAC", 0⟩
    (⟨.jwt, "sec", "Unauthorized", "Forbidden", [],
      fun _ _ => Except.ok (), fun _ => Except.ok ()⟩ : AuthConfig Unit)
    "/p" "Bearer a.b.c" "a.b.c" "a" "b" "c" "a==="
    [("alg", Jval.str "none")]
    (by decide) rfl rfl (by decide) rfl rfl (by decide) (by decide)).2.2

/-- C6: a Bearer token of three dot-separated segments whose recomputed
HMAC-SHA256 of `header.payload` under the configured secret is not
byte-for-byte the base64url-decoded third segment can never pass
`parseJWT`; the middleware responds 401 and the user lookup collaborator is
never invoked. -/
theorem authMiddleware_rejects_bad_signature {User : Type} (P : GoLibPrims)
    (cfg : AuthConfig User) (path authHeader t h0 h1 h2 : String)
    (hsplit : goSplit t '.' = [h0, h1, h2])
    (hsig : base64URLDecode P h2 ≠
      some (createHmacSignature P (h0 ++ "." ++ h1) cfg.jwtSecret))
    (htype : cfg.authType = .jwt)
    (hskip : cfg.skipPaths.contains path = false)
    (hne : authHeader ≠ "")
    (hhdr : goSplitN2 authHeader ' ' = ["Bearer", t]) :
    (∃ msg, parseJWT P t cfg.jwtSecret = .error (.plain msg)) ∧
    (∃ msg, handleBearerToken P cfg.jwtLookup t cfg.jwtSecret =
      (.error (.wrap "invalid token" (.plain msg)), false)) ∧
    runAuthMiddleware P cfg path authHeader =
      (.respond 401 (NewUnauthorizedResponse cfg.unauthorizedMessage), false) := by
  have hp : ∃ msg, parseJWT P t cfg.jwtSecret = .error (.plain msg) := by
    rcases hd0 : base64URLDecode P h0 with _ | headerJSON
    · exact ⟨"invalid token header", by simp [parseJWT, hsplit, hd0]⟩
    rcases hp0 : P.jsonUnmarshalObj headerJSON with _ | header
    · exact ⟨"invalid token header", by simp [parseJWT, hsplit, hd0, hp0]⟩
    rcases hl : goMapLookup header "alg" with _ | jv
    · exact ⟨"unsupported signing method", by simp [parseJWT, hsplit, hd0, hp0, hl]⟩
    cases jv with
    | str s =>
        by_cases hs : s = "HS256"
        · subst hs
          rcases hd1 : base64URLDecode P h1 with _ | payloadJSON
          · exact ⟨"invalid token payload",
              by simp [parseJWT, hsplit, hd0, hp0, hl, hd1]⟩
          rcases hp1 : P.jsonUnmarshalObj payloadJSON with _ | claims
          · exact ⟨"invalid token payload",
              by simp [parseJWT, hsplit, hd0, hp0, hl, hd1, hp1]⟩
          rcases hd2 : base64URLDecode P h2 with _ | sigBytes
          · exact ⟨"invalid token signature",
              by simp [parseJWT, hsplit, hd0, hp0, hl, hd1, hp1, hd2]⟩
          have hmis : sigBytes ≠
              createHmacSignature P (h0 ++ "." ++ h1) cfg.jwtSecret := by
            intro h; exact hsig (by rw [hd2, h])
          exact ⟨"invalid token signature",
            by simp [parseJWT, hsplit, hd0, hp0, hl, hd1, hp1, hd2, hmis]⟩
        · exact ⟨"unsupported signing method",
            by simp [parseJWT, hsplit, hd0, hp0, hl, hs]⟩
    | num n => exact ⟨"unsupported signing method",
        by simp [parseJWT, hsplit, hd0, hp0, hl]⟩
    | bool b => exact ⟨"unsupported signing method",
        by simp [parseJWT, hsplit, hd0, hp0, hl]⟩
    | null => exact ⟨"unsupported signing method",
        by simp [parseJWT, hsplit, hd0, hp0, hl]⟩
    | composite tag => exact ⟨"unsupported signing method",
        by simp [parseJWT, hsplit, hd0, hp0, hl]⟩
  obtain ⟨msg, hmsg⟩ := hp
  have hb : handleBearerToken P cfg.jwtLookup t cfg.jwtSecret =
      (.error (.wrap "invalid token" (.plain msg)), false) := by
    simp [handleBearerToken, hmsg]
  have hskip' : path ∉ cfg.skipPaths := by simpa using hskip
  refine ⟨⟨msg, hmsg⟩, ⟨msg, hb⟩, ?_⟩
  simp [runAuthMiddleware, hskip', hne, hhdr, htype, hb, GoErr.isForbidden]

/-- Witness for C6: a concrete token `a.b.c` whose decoded signature
(`c===` under the identity base64 collaborator) differs from the recomputed
MAC is rejected with 401 without invoking the lookup collaborator. -/
theorem authMiddleware_rejects_bad_signature_witness :
    runAuthMiddleware
        ⟨fun s => some s, fun _ => some [("alg", Jval.str "HS256")],
         fun _ _ => "MAC", 0⟩
        (⟨.jwt, "sec", "Unauthorized", "Forbidden", [],
          fun _ _ => Except.ok (), fun _ => Except.ok ()⟩ : AuthConfig Unit)
        "/p" "Bearer a.b.c" =
      (.respond 401 (NewUnauthorizedResponse "Unauthorized"), false) :=
  (authMiddleware_rejects_bad_signature
    ⟨fun s => some s, fun _ => some [("alg", Jval.str "HS256")], fun _ _ => "MAC", 0⟩
    (⟨.jwt, "sec", "Unauthorized", "Forbidden", [],
      fun _ _ => Except.ok (), fun _ => Except.ok ()⟩ : AuthConfig Unit)
    "/p" "Bearer a.b.c" "a.b.c" "a" "b" "c"
    (by decide) (by decide) rfl rfl (by decide) (by decide)).2.2

/-- C3, failing input: the skip entry `/user/:id` matches the request path
`/user/123` as a `:param` pattern (per the repository's own
`util.IsSkipPaths` matcher, and likewise `/api/*` matches `/api/users` as a
glob), yet the authentication middleware — whose skip check is a plain
string comparison — still demands an `Authorization` header and answers 401
for a request without one; and the std logging middleware on its engine
branch emits a log entry even when the path is skip-listed *verbatim*,
because that branch never consults `SkipPaths` at all. -/
theorem skipPaths_patterns_not_bypassed :
    isParamPatternMatch "/user/:id" "/user/123" = true ∧
    IsSkipPaths "/user/123" ["/user/:id"] = true ∧
    isWildcardMatch "/api/*" "/api/users" = true ∧
    IsSkipPaths "/api/users" ["/api/*"] = true ∧
    runAuthMiddleware ⟨fun _ => none, fun _ => none, fun _ _ => "", 0⟩
        (⟨.jwt, "sec", "Unauthorized", "Forbidden", ["/user/:id"],
          fun _ _ => Except.ok (), fun _ => Except.ok ()⟩ : AuthConfig Unit)
        "/user/123" "" =
      (.respond 401 (NewUnauthorizedResponse "Unauthorized"), false) ∧
    runAuthMiddleware ⟨fun _ => none, fun _ => none, fun _ _ => "", 0⟩
        (⟨.jwt, "sec", "Unauthorized", "Forbidden", ["/api/*"],
          fun _ _ => Except.ok (), fun _ => Except.ok ()⟩ : AuthConfig Unit)
        "/api/users" "" =
      (.respond 401 (NewUnauthorizedResponse "Unauthorized"), false) ∧
    (stdLoggingMiddlewareLog ⟨"", [], true, false, ["/user/:id"]⟩
        ⟨"GET", "/user/123", "HTTP/1.1", [], "1.2.3.4:5678"⟩ true 200 0 "rid"
        "ts").isSome = true ∧
    (stdLoggingMiddlewareLog ⟨"", [], true, false, ["/user/123"]⟩
        ⟨"GET", "/user/123", "HTTP/1.1", [], "1.2.3.4:5678"⟩ true 200 0 "rid"
        "ts").isSome = true := by
  decide

lemma getD_replicate_ret (N i : Nat) :
    (List.replicate N HandlerProg.ret).getD i HandlerProg.ret = HandlerProg.ret := by
  induction N generalizing i with
  | zero => simp [List.getD]
  | succ n ih =>
      cases i with
      | zero => simp [List.replicate_succ]
      | succ j => simp [List.replicate_succ, ih j]

lemma runProg_ret (hs : List HandlerProg) (f : Nat) (s : ChainState) :
    runProg hs f HandlerProg.ret s = s := by
  cases f <;> rfl

/-- In a chain of handlers that all return immediately (no `Next`, no
`Abort`), the driving loop of `Context.Next` visits every remaining
position in order, one fuel unit per position. -/
lemma nextLoop_replicate_ret (N : Nat) :
    ∀ (f i : Nat) (e : List Nat), N ≤ i + f → i ≤ N →
      nextLoop (List.replicate N HandlerProg.ret) f ⟨(i : Int), e⟩ =
        ⟨(N : Int), e ++ List.range' i (N - i)⟩ := by
  intro f
  induction f with
  | zero =>
      intro i e hf hi
      have hiN : i = N := by omega
      subst hiN
      simp [nextLoop]
  | succ f ih =>
      intro i e hf hi
      rcases lt_or_eq_of_le hi with hlt | heq
      · have hguard : ((i : Nat) : Int) <
            (((List.replicate N HandlerProg.ret).length : Nat) : Int) := by
          rw [List.length_replicate]
          exact_mod_cast hlt
        rw [nextLoop, if_pos hguard]
        simp only [Int.toNat_natCast, getD_replicate_ret, runProg_ret]
        have hcast : ((i : Nat) : Int) + 1 = (((i + 1 : Nat) : Nat) : Int) := by
          push_cast; ring
        rw [hcast]
        rw [ih (i + 1) (e ++ [i]) (by omega) (by omega)]
        have hrange : List.range' i (N - i) = i :: List.range' (i + 1) (N - (i + 1)) := by
          have h1 : N - i = (N - (i + 1)) + 1 := by omega
          rw [h1, List.range'_succ]
        rw [hrange]
        simp
      · subst heq
        rw [nextLoop, if_neg (by simp [List.length_replicate])]
        simp

/-- C1, counterexample: in the std engine a chain of two handlers whose
first handler returns without calling `Next()` and without calling
`Abort()` (`HandlerProg.ret`) still executes the handler at position 1: the
driving loop in `Context.Next` advances the cursor past a handler that
merely returns.  There is no implicit abort. -/
theorem stdChain_return_without_next_still_continues :
    runStdChain [HandlerProg.ret, HandlerProg.ret] = ⟨2, [0, 1]⟩ ∧
    (1 : Nat) ∈ (runStdChain [HandlerProg.ret, HandlerProg.ret]).executed := by
  decide

/-- The executed trace only ever grows: every run of the interpreter leaves
the previously recorded handler positions as a prefix. -/
lemma chainExecutedExtends (hs : List HandlerProg) :
    ∀ f : Nat,
      (∀ s, ∃ t, (runNext hs f s).executed = s.executed ++ t) ∧
      (∀ s, ∃ t, (nextLoop hs f s).executed = s.executed ++ t) ∧
      (∀ p s, ∃ t, (runProg hs f p s).executed = s.executed ++ t) := by
  intro f
  induction f with
  | zero =>
      refine ⟨fun s => ⟨[], by simp [runNext]⟩, fun s => ⟨[], by simp [nextLoop]⟩,
        fun p s => ⟨[], ?_⟩⟩
      cases p <;> simp [runProg]
  | succ f ih =>
      obtain ⟨ihNext, ihLoop, ihProg⟩ := ih
      refine ⟨?_, ?_, ?_⟩
      · intro s
        obtain ⟨t, ht⟩ := ihLoop { s with index := s.index + 1 }
        exact ⟨t, by simpa [runNext] using ht⟩
      · intro s
        by_cases hguard : s.index < (hs.length : Int)
        · obtain ⟨t1, ht1⟩ := ihProg (hs.getD s.index.toNat HandlerProg.ret)
            { s with executed := s.executed ++ [s.index.toNat] }
          obtain ⟨t2, ht2⟩ := ihLoop
            { runProg hs f (hs.getD s.index.toNat HandlerProg.ret)
                { s with executed := s.executed ++ [s.index.toNat] } with
              index := (runProg hs f (hs.getD s.index.toNat HandlerProg.ret)
                { s with executed := s.executed ++ [s.index.toNat] }).index + 1 }
          refine ⟨[s.index.toNat] ++ t1 ++ t2, ?_⟩
          rw [nextLoop, if_pos hguard]
          simp only at ht2
          rw [ht2, ht1]
          simp
        · exact ⟨[], by rw [nextLoop, if_neg hguard]; simp⟩
      · intro p s
        cases p with
        | ret => exact ⟨[], by simp [runProg]⟩
        | seqNext rest =>
            obtain ⟨t1, ht1⟩ := ihNext s
            obtain ⟨t2, ht2⟩ := ihProg rest (runNext hs f s)
            exact ⟨t1 ++ t2, by rw [runProg, ht2, ht1]; simp⟩
        | seqAbort rest =>
            obtain ⟨t, ht⟩ := ihProg rest { s with index := (hs.length : Int) }
            exact ⟨t, by rw [runProg]; simpa using ht⟩

/-- Every position of an all-return chain executes, in order (used by the
second half of the C1 amendment). -/
theorem stdChain_all_return_handlers_execute (N : Nat) :
    (runStdChain (List.replicate N HandlerProg.ret)).executed = List.range N := by
  have hfuel : chainFuel (List.replicate N HandlerProg.ret) = N * (N + 2) + N + 2 := by
    simp [chainFuel, progSize, List.map_replicate, List.sum_replicate, smul_eq_mul,
      List.length_replicate]
  have h2 : N * (N + 2) + N + 2 = (N * (N + 2) + N + 1) + 1 := by omega
  rw [runStdChain, hfuel, h2, runNext]
  show (nextLoop (List.replicate N HandlerProg.ret) (N * (N + 2) + N + 1)
      { index := ((0 : Nat) : Int), executed := [] }).executed = List.range N
  rw [nextLoop_replicate_ret N (N * (N + 2) + N + 1) 0 [] (by omega) (by omega)]
  simp [List.range_eq_range']

/-- C1, amended: a handler that returns without calling `Next()` and without
calling `Abort()` does not stop the std chain.  In *any* chain, whenever the
driving loop of `Context.Next` invokes such a handler (`HandlerProg.ret`) at
a position `i` with `i + 1 < N`, the handler at position `i + 1` is invoked
immediately after it; and in a chain whose handlers all merely return, every
position `0 .. N-1` executes, in order. -/
theorem stdChain_no_implicit_abort :
    (∀ (hs : List HandlerProg) (i : Nat) (e : List Nat) (f : Nat),
      i + 1 < hs.length → hs.getD i HandlerProg.ret = HandlerProg.ret →
      ∃ rest, (nextLoop hs (f + 2) ⟨(i : Int), e⟩).executed =
        e ++ i :: (i + 1) :: rest) ∧
    (∀ N : Nat,
      (runStdChain (List.replicate N HandlerProg.ret)).executed = List.range N) := by
  constructor
  · intro hs i e f hi hret
    have hguard1 : ((i : Nat) : Int) < (hs.length : Int) := by exact_mod_cast by omega
    rw [nextLoop, if_pos hguard1]
    simp only [Int.toNat_natCast, hret, runProg_ret]
    have hcast : ((i : Nat) : Int) + 1 = (((i + 1 : Nat) : Nat) : Int) := by
      push_cast; ring
    rw [hcast]
    have hguard2 : (((i + 1 : Nat) : Nat) : Int) < (hs.length : Int) := by
      exact_mod_cast hi
    rw [nextLoop, if_pos hguard2]
    simp only [Int.toNat_natCast]
    obtain ⟨t1, ht1⟩ := (chainExecutedExtends hs f).2.2
      (hs.getD (i + 1) HandlerProg.ret)
      { index := ((i + 1 : Nat) : Int), executed := (e ++ [i]) ++ [i + 1] }
    obtain ⟨t2, ht2⟩ := (chainExecutedExtends hs f).2.1
      { runProg hs f (hs.getD (i + 1) HandlerProg.ret)
          { index := ((i + 1 : Nat) : Int), executed := (e ++ [i]) ++ [i + 1] } with
        index := (runProg hs f (hs.getD (i + 1) HandlerProg.ret)
          { index := ((i + 1 : Nat) : Int),
            executed := (e ++ [i]) ++ [i + 1] }).index + 1 }
    refine ⟨t1 ++ t2, ?_⟩
    simp only at ht2
    rw [ht2, ht1]
    simp
  · intro N
    exact stdChain_all_return_handlers_execute N

/-- Witness for C1's amended theorem: in the chain `[ret, ret, ret]`, when
the loop invokes the plain-return handler at position 0, position 1 runs
right after it; and the three-handler all-return chain executes `[0, 1, 2]`. -/
theorem stdChain_no_implicit_abort_witness :
    (∃ rest,
      (nextLoop [HandlerProg.ret, HandlerProg.ret, HandlerProg.ret] 2
        ⟨((0 : Nat) : Int), []⟩).executed = [] ++ 0 :: 1 :: rest) ∧
    (runStdChain (List.replicate 3 HandlerProg.ret)).executed = List.range 3 :=
  ⟨stdChain_no_implicit_abort.1 [HandlerProg.ret, HandlerProg.ret, HandlerProg.ret]
      0 [] 0 (by decide) (by decide),
   stdChain_no_implicit_abort.2 3⟩

end GoHttpServer
